import Mathlib

/-!
Verification development for the Cause Pots on-chain group-savings program
(`src/cause-pots/contract`).  The Anchor/Rust program source
(`programs/contract/src/lib.rs`) is not present in the repository snapshot;
its account model, instruction handlers and error codes are modelled from the
specification (spec.md §3, §4, §7) and the contract README
(`src/cause-pots/contract/README.md`), with observable check ordering fixed by
the test suite (`src/cause-pots/contract/tests/contract.ts`).  Identities
(Solana public keys) are abstracted as natural numbers; u64 fields are
naturals with explicit checked arithmetic against the 64-bit maximum;
timestamps are integers (i64).
-/

/-- Abstract identity (Solana `Pubkey`). -/
abbrev Pubkey := Nat

deriving instance DecidableEq for Except

/-- Largest value representable in an unsigned 64-bit integer. -/
def U64MAX : Nat := 2 ^ 64 - 1

/-- Checked u64 addition (`checked_add` in the Rust source): `none` when the
mathematical sum would exceed the 64-bit maximum. -/
def checkedAddU64 (a b : Nat) : Option Nat :=
  if a + b ≤ U64MAX then some (a + b) else none

/-- Error codes of the contract, from README `Error Codes` (6000–6013). -/
inductive PotError where
  | NameTooLong
  | DescriptionTooLong
  | InvalidTargetAmount
  | InvalidUnlockPeriod
  | InvalidSignersRequired
  | InvalidAmount
  | PotAlreadyReleased
  | TimeLockNotExpired
  | NotAContributor
  | AlreadySigned
  | InsufficientSignatures
  | AlreadyAContributor
  | InsufficientFunds
  | Overflow
  deriving DecidableEq, Repr

/-- `PotAccount` state, from README `Account Structures` and spec §3.
The `bump` PDA field is irrelevant to program logic and omitted. -/
structure Pot where
  authority : Pubkey
  name : String
  description : String
  target_amount : Nat
  total_contributed : Nat
  unlock_timestamp : Int
  signers_required : Nat
  signatures : List Pubkey
  contributors : List Pubkey
  is_released : Bool
  released_at : Option Int
  recipient : Option Pubkey
  created_at : Int
  deriving DecidableEq, Repr

/-- `ContributorAccount` state, from README `Account Structures` and spec §3
(`bump` omitted as above). -/
structure ContributorAccount where
  pot : Pubkey
  contributor : Pubkey
  total_contributed : Nat
  contribution_count : Nat
  last_contribution_at : Int
  joined_at : Int
  deriving DecidableEq, Repr

/-- The accounts touched by instructions against one Pot: the Pot record, its
address, the lazily created per-contributor records, and the lamports held in
the Pot's custody (spec §3, §6). -/
structure PotState where
  pot : Pot
  potAddress : Pubkey
  accounts : List ContributorAccount
  balance : Nat
  deriving DecidableEq, Repr

/-- Modelled from the spec: the Rust handler `create_pot` is not present under
`src/`; semantics follow spec §4.1 and README `create_pot` (validations in the
error-code order 6000–6004; `unlock_timestamp = now + unlock_days*86400`;
`contributors = [authority]`; all counters zero; `is_released = false`). -/
def create_pot (authority : Pubkey) (name description : String)
    (target_amount : Nat) (unlock_days : Int) (signers_required : Nat)
    (now : Int) : Except PotError Pot :=
  if name.length > 32 then .error .NameTooLong
  else if description.length > 200 then .error .DescriptionTooLong
  else if target_amount = 0 then .error .InvalidTargetAmount
  else if unlock_days ≤ 0 then .error .InvalidUnlockPeriod
  else if signers_required = 0 then .error .InvalidSignersRequired
  else .ok
    { authority := authority
      name := name
      description := description
      target_amount := target_amount
      total_contributed := 0
      unlock_timestamp := now + unlock_days * 86400
      signers_required := signers_required
      signatures := []
      contributors := [authority]
      is_released := false
      released_at := none
      recipient := none
      created_at := now }

/-- First `ContributorAccount` in the list belonging to `who`, if any
(deterministic-address lookup, spec §3). -/
def findAccount (accs : List ContributorAccount) (who : Pubkey) :
    Option ContributorAccount :=
  match accs with
  | [] => none
  | a :: rest => if a.contributor = who then some a else findAccount rest who

/-- Replace the account belonging to `who` by `acc'`; append when absent
(the ledger's store keyed by derived address, spec §3). -/
def setAccount (accs : List ContributorAccount) (who : Pubkey)
    (acc' : ContributorAccount) : List ContributorAccount :=
  match accs with
  | [] => [acc']
  | a :: rest =>
      if a.contributor = who then acc' :: rest
      else a :: setAccount rest who acc'

/-- Sum of the `total_contributed` fields of all contributor records. -/
def sumContributed (accs : List ContributorAccount) : Nat :=
  match accs with
  | [] => 0
  | a :: rest => a.total_contributed + sumContributed rest

/-- Modelled from the spec: the Rust handler `contribute` is not present under
`src/`; semantics follow spec §4.2 steps 1–5 and README `contribute`
(released-pot check first as in spec §4.2's precondition order, then
`amount > 0`; lazy `ContributorAccount` creation; checked adds on both
`total_contributed` fields, contributor-record add first per spec step order). -/
def contribute (st : PotState) (caller : Pubkey) (amount : Nat) (now : Int) :
    Except PotError PotState :=
  if st.pot.is_released then .error .PotAlreadyReleased
  else if amount = 0 then .error .InvalidAmount
  else
    let acc :=
      match findAccount st.accounts caller with
      | some a => a
      | none =>
          { pot := st.potAddress
            contributor := caller
            total_contributed := 0
            contribution_count := 0
            last_contribution_at := now
            joined_at := now }
    match checkedAddU64 acc.total_contributed amount with
    | none => .error .Overflow
    | some accTotal =>
      match checkedAddU64 st.pot.total_contributed amount with
      | none => .error .Overflow
      | some potTotal =>
        let acc' :=
          { acc with
            total_contributed := accTotal
            contribution_count := acc.contribution_count + 1
            last_contribution_at := now }
        let contribs :=
          if st.pot.contributors.contains caller then st.pot.contributors
          else st.pot.contributors ++ [caller]
        .ok
          { st with
            pot := { st.pot with
                      total_contributed := potTotal
                      contributors := contribs }
            accounts := setAccount st.accounts caller acc'
            balance := st.balance + amount }

/-- Modelled from the spec: the Rust handler `sign_release` is not present
under `src/`; validations follow README `sign_release` in its listed order
(released, membership, double-sign, time-lock), the order forced by the tests
at `tests/contract.ts:485-517`, where before the unlock a contributor gets
`TimeLockNotExpired` but a non-contributor gets `NotAContributor`. -/
def sign_release (st : PotState) (caller : Pubkey) (now : Int) :
    Except PotError PotState :=
  if st.pot.is_released then .error .PotAlreadyReleased
  else if st.pot.contributors.contains caller then
    if st.pot.signatures.contains caller then .error .AlreadySigned
    else if now < st.pot.unlock_timestamp then .error .TimeLockNotExpired
    else .ok { st with pot := { st.pot with signatures := st.pot.signatures ++ [caller] } }
  else .error .NotAContributor

/-- Modelled from the spec: the Rust handler `release_funds` is not present
under `src/`; semantics follow spec §4.4 and README `release_funds`, with the
time-lock checked before the signature quorum as forced by the test at
`tests/contract.ts:569-604` (zero signatures, one required, before the unlock:
observed error is `TimeLockNotExpired`).  The funds check keeps the
rent-exempt floor `rentFloor` in custody and releases the excess; the
authority-only constraint is enforced by the environment's account
constraints, outside the handler body. -/
def release_funds (st : PotState) (recipient : Pubkey) (now : Int)
    (rentFloor : Nat) : Except PotError PotState :=
  if st.pot.is_released then .error .PotAlreadyReleased
  else if now < st.pot.unlock_timestamp then .error .TimeLockNotExpired
  else if st.pot.signatures.length < st.pot.signers_required then
    .error .InsufficientSignatures
  else if st.balance < rentFloor then .error .InsufficientFunds
  else .ok
    { st with
      pot := { st.pot with
                is_released := true
                released_at := some now
                recipient := some recipient }
      balance := rentFloor }

/-- Modelled from the spec: the Rust handler `add_contributor` is not present
under `src/`; semantics follow spec §4.5 and README `add_contributor`
(released check, then duplicate check; append only — no `ContributorAccount`
creation, no contribution recorded).  The authority-only constraint is the
environment's, outside the handler body. -/
def add_contributor (st : PotState) (new_contributor : Pubkey) :
    Except PotError PotState :=
  if st.pot.is_released then .error .PotAlreadyReleased
  else if st.pot.contributors.contains new_contributor then
    .error .AlreadyAContributor
  else .ok
    { st with
      pot := { st.pot with
                contributors := st.pot.contributors ++ [new_contributor] } }

/-- Atomic application of `contribute` (spec §7: on failure the environment
guarantees zero state change). -/
def applyContribute (st : PotState) (caller : Pubkey) (amount : Nat)
    (now : Int) : PotState :=
  match contribute st caller amount now with
  | .ok st' => st'
  | .error _ => st

/-- One instruction directed at an existing Pot (all mutating handlers other
than `create_pot`), with its caller-supplied arguments and the environment
inputs (`now`, rent floor). -/
inductive PotCall where
  | contributeCall (caller : Pubkey) (amount : Nat) (now : Int)
  | signReleaseCall (caller : Pubkey) (now : Int)
  | releaseFundsCall (recipient : Pubkey) (now : Int) (rentFloor : Nat)
  | addContributorCall (new_contributor : Pubkey)
  deriving Repr

/-- Run one call, returning the handler's result. -/
def runCall (st : PotState) : PotCall → Except PotError PotState
  | .contributeCall caller amount now => contribute st caller amount now
  | .signReleaseCall caller now => sign_release st caller now
  | .releaseFundsCall recipient now rentFloor =>
      release_funds st recipient now rentFloor
  | .addContributorCall new_contributor => add_contributor st new_contributor

/-- Atomic application of one call (spec §7 all-or-nothing semantics). -/
def applyCall (st : PotState) (c : PotCall) : PotState :=
  match runCall st c with
  | .ok st' => st'
  | .error _ => st

/-- Atomic application of a sequence of calls, in order. -/
def applyCalls (st : PotState) : List PotCall → PotState
  | [] => st
  | c :: cs => applyCalls (applyCall st c) cs

/-- Sequence of `contribute` calls: (caller, amount, now) triples. -/
def applyContribs (st : PotState) : List (Pubkey × Nat × Int) → PotState
  | [] => st
  | (caller, amount, now) :: rest =>
      applyContribs (applyContribute st caller amount now) rest

/-- Accounting invariant of spec §3/§8: the Pot's running total equals the sum
over all `ContributorAccount` records. -/
def potInv (st : PotState) : Prop :=
  st.pot.total_contributed = sumContributed st.accounts

instance (st : PotState) : Decidable (potInv st) :=
  inferInstanceAs (Decidable (_ = _))

/-- Current `total_contributed` recorded for `caller`, zero when no
`ContributorAccount` exists yet. -/
def contributorTotal (st : PotState) (caller : Pubkey) : Nat :=
  match findAccount st.accounts caller with
  | some a => a.total_contributed
  | none => 0

/-- Solana's maximum PDA seed length in bytes (`MAX_SEED_LEN`), the
environment limit referenced by the test comment at `tests/contract.ts:140`
("PDA seed length check happens before contract call"). -/
def MAX_SEED_LEN : Nat := 32

/-- Failures observable by a client submitting an instruction: either the
environment's seed-length error raised while deriving the PDA, or a program
error. -/
inductive TxError where
  | maxSeedLengthExceeded
  | program (e : PotError)
  deriving DecidableEq, Repr

/-- Modelled from the spec: the environment's PDA derivation
`derive("pot", authority, name)` (spec §6, README `PDA Seeds for PotAccount`).
The hash itself is abstracted; what matters to the program's interface is the
environment's per-seed length limit: the `name` seed is the UTF-8 byte
encoding of `name`, rejected with `Max seed length exceeded` when longer than
`MAX_SEED_LEN` bytes.  The fixed seeds (`"pot"`, 3 bytes; the authority key,
32 bytes) are within the limit. -/
def derivePotAddress (authority : Pubkey) (name : String) :
    Except TxError Pubkey :=
  if name.utf8ByteSize > MAX_SEED_LEN then .error .maxSeedLengthExceeded
  else .ok authority

/-- A client-side `create_pot` submission: the pot PDA is derived first (as
done by `getPotPDA` in `tests/contract.ts:32-41` before the program call),
then the handler runs. -/
def submitCreatePot (authority : Pubkey) (name description : String)
    (target_amount : Nat) (unlock_days : Int) (signers_required : Nat)
    (now : Int) : Except TxError Pot :=
  match derivePotAddress authority name with
  | .error e => .error e
  | .ok _ =>
      match create_pot authority name description target_amount unlock_days
          signers_required now with
      | .error e => .error (.program e)
      | .ok p => .ok p

/-- Currency enum passed by the frontend builder
(`src/unnamed/part_002`, `buildCreatePotTx`). -/
inductive Currency where
  | sol
  | usdc
  deriving DecidableEq, Repr

/-- One positional argument in a `createPot` program call. -/
inductive CreatePotArg where
  | nameArg (s : String)
  | descriptionArg (s : String)
  | targetAmountArg (n : Nat)
  | unlockDaysArg (n : Int)
  | signersRequiredArg (n : Nat)
  | currencyArg (c : Currency)
  deriving DecidableEq, Repr

/-- Whether an argument is the currency enum. -/
def CreatePotArg.isCurrency : CreatePotArg → Bool
  | .currencyArg _ => true
  | _ => false

/-- Parameter record of `PotProgramService.buildCreatePotTx`
(`src/unnamed/part_002` lines 154-162). -/
structure CreatePotParams where
  authority : Pubkey
  name : String
  description : String
  targetAmount : Nat
  unlockDays : Int
  signersRequired : Nat
  currency : Currency

/-- Lamports per SOL, as used by the frontend builder. -/
def LAMPORTS_PER_SOL : Nat := 1000000000

/-- Positional argument list the frontend builder passes to `createPot`
(`src/unnamed/part_002` lines 165-173): name, description, target amount
scaled to lamports, unlock days, signers required, and a sixth currency-enum
argument. -/
def buildCreatePotArgs (p : CreatePotParams) : List CreatePotArg :=
  [ .nameArg p.name,
    .descriptionArg p.description,
    .targetAmountArg (p.targetAmount * LAMPORTS_PER_SOL),
    .unlockDaysArg p.unlockDays,
    .signersRequiredArg p.signersRequired,
    .currencyArg p.currency ]

/-- Parameter list of the contract's `create_pot` instruction as declared by
the interface documentation (`README.md` lines 63-68) and exercised by every
test call (`tests/contract.ts:84-98`): exactly five parameters, no currency. -/
def createPotDeclaredParams : List String :=
  ["name", "description", "target_amount", "unlock_days", "signers_required"]

/-- Sample active Pot used by concrete witnesses: the `Trip Fund` pot of
`tests/contract.ts:80-114` (time origin at creation, amounts in small units). -/
def sampleActivePot : Pot :=
  { authority := 0
    name := "Trip Fund"
    description := "Saving for Tokyo trip"
    target_amount := 50
    total_contributed := 0
    unlock_timestamp := 86400
    signers_required := 2
    signatures := []
    contributors := [0]
    is_released := false
    released_at := none
    recipient := none
    created_at := 0 }

/-- Sample pot-level state around `sampleActivePot`. -/
def sampleState : PotState :=
  { pot := sampleActivePot, potAddress := 100, accounts := [], balance := 10 }

/-- Sample state of a released pot, for witnesses of the terminal-state laws. -/
def releasedState : PotState :=
  { pot := { sampleActivePot with
              is_released := true
              released_at := some 90000
              recipient := some 5
              signatures := [1, 2]
              contributors := [0, 1, 2] }
    potAddress := 100
    accounts := []
    balance := 2 }

/-- Sample state whose pot total sits at the u64 maximum, for overflow
witnesses. -/
def overState : PotState :=
  { pot := { sampleActivePot with total_contributed := U64MAX }
    potAddress := 100
    accounts := []
    balance := 10 }

/-- Sample state past its unlock time with one collected signature, for
quorum witnesses. -/
def quorumState : PotState :=
  { pot := { sampleActivePot with
              contributors := [0, 1]
              signatures := [1]
              signers_required := 1 }
    potAddress := 100
    accounts := []
    balance := 10 }

/-- Sample name of exactly 32 characters. -/
def name32 : String := String.mk (List.replicate 32 'A')

/-- Sample name of exactly 33 characters. -/
def name33 : String := String.mk (List.replicate 33 'A')

/-! ## Helper lemmas -/

theorem checkedAddU64_eq_some (a b : Nat) (h : a + b ≤ U64MAX) :
    checkedAddU64 a b = some (a + b) := by
  simp [checkedAddU64, h]

theorem checkedAddU64_eq_none (a b : Nat) (h : U64MAX < a + b) :
    checkedAddU64 a b = none := by
  simp [checkedAddU64]
  omega

theorem eq_add_of_checkedAddU64_eq_some (a b c : Nat)
    (h : checkedAddU64 a b = some c) : c = a + b ∧ a + b ≤ U64MAX := by
  by_cases hle : a + b ≤ U64MAX
  · rw [checkedAddU64_eq_some a b hle] at h
    exact ⟨(Option.some.injEq _ _).mp h.symm, hle⟩
  · rw [checkedAddU64_eq_none a b (by omega)] at h
    exact absurd h (by simp)

theorem sumContributed_setAccount_found (accs : List ContributorAccount)
    (who : Pubkey) (a acc' : ContributorAccount)
    (h : findAccount accs who = some a) :
    sumContributed (setAccount accs who acc') + a.total_contributed
      = sumContributed accs + acc'.total_contributed := by
  induction accs with
  | nil => simp [findAccount] at h
  | cons b rest ih =>
      by_cases hb : b.contributor = who
      · simp [findAccount, hb] at h
        subst h
        simp [setAccount, hb, sumContributed]
        omega
      · simp [findAccount, hb] at h
        simp [setAccount, hb, sumContributed]
        have := ih h
        omega

theorem sumContributed_setAccount_none (accs : List ContributorAccount)
    (who : Pubkey) (acc' : ContributorAccount)
    (h : findAccount accs who = none) :
    sumContributed (setAccount accs who acc')
      = sumContributed accs + acc'.total_contributed := by
  induction accs with
  | nil => simp [setAccount, sumContributed]
  | cons b rest ih =>
      by_cases hb : b.contributor = who
      · simp [findAccount, hb] at h
      · simp [findAccount, hb] at h
        simp [setAccount, hb, sumContributed, ih h]
        omega

theorem applyContribute_potInv (st : PotState) (caller : Pubkey) (amount : Nat)
    (now : Int) (h : potInv st) :
    potInv (applyContribute st caller amount now) := by
  unfold applyContribute contribute
  by_cases hrel : st.pot.is_released
  · simp [hrel, h]
  · by_cases hamt : amount = 0
    · simp [hrel, hamt, h]
    · simp only [hrel, hamt, if_false, Bool.false_eq_true, ite_false]
      rcases hfind : findAccount st.accounts caller with _ | a
      · rcases hacc : checkedAddU64 0 amount with _ | accTotal
        · simp [hfind, hacc, h]
        · rcases hpot : checkedAddU64 st.pot.total_contributed amount
            with _ | potTotal
          · simp [hfind, hacc, hpot, h]
          · simp only [hfind, hacc, hpot]
            obtain ⟨hacc_eq, -⟩ := eq_add_of_checkedAddU64_eq_some _ _ _ hacc
            obtain ⟨hpot_eq, -⟩ := eq_add_of_checkedAddU64_eq_some _ _ _ hpot
            have hsum : sumContributed (setAccount st.accounts caller
                { pot := st.potAddress, contributor := caller,
                  total_contributed := accTotal, contribution_count := 0 + 1,
                  last_contribution_at := now, joined_at := now })
                = sumContributed st.accounts + accTotal :=
              sumContributed_setAccount_none st.accounts caller _ hfind
            have hgoal : potTotal = sumContributed (setAccount st.accounts caller
                { pot := st.potAddress, contributor := caller,
                  total_contributed := accTotal, contribution_count := 0 + 1,
                  last_contribution_at := now, joined_at := now }) := by
              simp only [potInv] at h
              omega
            exact hgoal
      · rcases hacc : checkedAddU64 a.total_contributed amount with _ | accTotal
        · simp [hfind, hacc, h]
        · rcases hpot : checkedAddU64 st.pot.total_contributed amount
            with _ | potTotal
          · simp [hfind, hacc, hpot, h]
          · simp only [hfind, hacc, hpot]
            obtain ⟨hacc_eq, -⟩ := eq_add_of_checkedAddU64_eq_some _ _ _ hacc
            obtain ⟨hpot_eq, -⟩ := eq_add_of_checkedAddU64_eq_some _ _ _ hpot
            have hsum : sumContributed (setAccount st.accounts caller
                { a with total_contributed := accTotal,
                         contribution_count := a.contribution_count + 1,
                         last_contribution_at := now }) + a.total_contributed
                = sumContributed st.accounts + accTotal :=
              sumContributed_setAccount_found st.accounts caller a _ hfind
            have hgoal : potTotal = sumContributed (setAccount st.accounts caller
                { a with total_contributed := accTotal,
                         contribution_count := a.contribution_count + 1,
                         last_contribution_at := now }) := by
              simp only [potInv] at h
              omega
            exact hgoal

/-! ## Claim theorems -/

/-- C1: for every sequence of `contribute` calls applied to a Pot state whose
running total already equals the sum of its `ContributorAccount` totals (as
any freshly created pot does: total 0, no accounts), the Pot's
`total_contributed` equals the sum of all `ContributorAccount`
`total_contributed` values again after the sequence — and, since `calls` is
arbitrary, after every prefix, i.e. at every observation point between
handler calls. -/
theorem contribute_sequence_invariant (st : PotState)
    (calls : List (Pubkey × Nat × Int)) (h : potInv st) :
    potInv (applyContribs st calls) := by
  induction calls generalizing st with
  | nil => exact h
  | cons c rest ih =>
      obtain ⟨caller, amount, now⟩ := c
      exact ih _ (applyContribute_potInv st caller amount now h)

/-- Witness for C1 at a concrete freshly created pot and a concrete
three-call contribution sequence. -/
theorem contribute_sequence_invariant_w :
    potInv sampleState ∧
    potInv (applyContribs sampleState [(1, 5, 10), (2, 7, 11), (1, 3, 12)]) :=
  ⟨by decide,
   contribute_sequence_invariant sampleState [(1, 5, 10), (2, 7, 11), (1, 3, 12)]
     (by decide)⟩

theorem runCall_released (st : PotState) (h : st.pot.is_released = true)
    (c : PotCall) : runCall st c = .error .PotAlreadyReleased := by
  cases c <;>
    simp [runCall, contribute, sign_release, release_funds, add_contributor, h]

theorem applyCall_released (st : PotState) (h : st.pot.is_released = true)
    (c : PotCall) : applyCall st c = st := by
  simp [applyCall, runCall_released st h c]

theorem applyCalls_released (st : PotState) (h : st.pot.is_released = true)
    (calls : List PotCall) : applyCalls st calls = st := by
  induction calls with
  | nil => rfl
  | cons c rest ih => simp [applyCalls, applyCall_released st h c, ih]

/-- C2: once a Pot's `is_released` is true, every invocation of any of the
four mutating handlers directed at it (`contribute`, `sign_release`,
`release_funds`, `add_contributor`) fails with `PotAlreadyReleased`, every
sequence of such calls leaves the state literally unchanged, and in
particular `released_at` and `recipient` never change. -/
theorem released_pot_terminal (st : PotState) (h : st.pot.is_released = true)
    (calls : List PotCall) :
    (∀ c : PotCall, runCall st c = .error .PotAlreadyReleased) ∧
    applyCalls st calls = st ∧
    (applyCalls st calls).pot.released_at = st.pot.released_at ∧
    (applyCalls st calls).pot.recipient = st.pot.recipient := by
  have hfix := applyCalls_released st h calls
  exact ⟨runCall_released st h, hfix, by rw [hfix], by rw [hfix]⟩

/-- Witness for C2 at a concrete released pot and a concrete call sequence
covering all four handlers. -/
theorem released_pot_terminal_w :
    (∀ c : PotCall, runCall releasedState c = .error .PotAlreadyReleased) ∧
    applyCalls releasedState
      [.contributeCall 1 5 100000, .signReleaseCall 1 100000,
       .releaseFundsCall 5 100000 2, .addContributorCall 9]
      = releasedState ∧
    (applyCalls releasedState
      [.contributeCall 1 5 100000, .signReleaseCall 1 100000,
       .releaseFundsCall 5 100000 2, .addContributorCall 9]).pot.released_at
      = releasedState.pot.released_at ∧
    (applyCalls releasedState
      [.contributeCall 1 5 100000, .signReleaseCall 1 100000,
       .releaseFundsCall 5 100000 2, .addContributorCall 9]).pot.recipient
      = releasedState.pot.recipient :=
  released_pot_terminal releasedState rfl
    [.contributeCall 1 5 100000, .signReleaseCall 1 100000,
     .releaseFundsCall 5 100000 2, .addContributorCall 9]

/-- C3 counterexample: the claim "release_funds fails with
InsufficientSignatures whenever the signature count is below
signers_required" is false as stated: on an active pot with zero signatures
of two required but an unexpired time-lock, the observed error is
`TimeLockNotExpired`, exactly as the test at `tests/contract.ts:569-604`
expects. -/
theorem release_funds_sig_cex :
    sampleState.pot.signatures.length < sampleState.pot.signers_required ∧
    sampleState.pot.is_released = false ∧
    release_funds sampleState 5 0 2 = .error .TimeLockNotExpired ∧
    release_funds sampleState 5 0 2 ≠ .error .InsufficientSignatures := by
  decide

/-- C3 (amended): on an active pot whose time-lock has passed,
`release_funds` fails with `InsufficientSignatures` whenever the signature
count is below `signers_required`, and succeeds — setting `is_released` to
true, with every further `release_funds` failing `PotAlreadyReleased`, so
exactly once — whenever the count reaches `signers_required` and the
custodied balance covers the rent floor. -/
theorem release_funds_quorum (st : PotState) (recipient : Pubkey) (now : Int)
    (rentFloor : Nat) (hact : st.pot.is_released = false)
    (htime : st.pot.unlock_timestamp ≤ now) :
    (st.pot.signatures.length < st.pot.signers_required →
       release_funds st recipient now rentFloor
         = .error .InsufficientSignatures) ∧
    (st.pot.signers_required ≤ st.pot.signatures.length →
       rentFloor ≤ st.balance →
       ∃ st', release_funds st recipient now rentFloor = .ok st' ∧
         st'.pot.is_released = true ∧
         st'.pot.released_at = some now ∧
         st'.pot.recipient = some recipient ∧
         ∀ r t f, release_funds st' r t f = .error .PotAlreadyReleased) := by
  constructor
  · intro hsig
    unfold release_funds
    rw [if_neg (by simp [hact]), if_neg (by omega), if_pos hsig]
  · intro hsig hbal
    unfold release_funds
    rw [if_neg (by simp [hact]), if_neg (by omega), if_neg (by omega),
        if_neg (by omega)]
    exact ⟨_, rfl, rfl, rfl, rfl, fun r t f => by simp [release_funds]⟩

/-- Witness for C3's amended statement: a concrete active pot past its
unlock with too few signatures fails `InsufficientSignatures`; one with
quorum releases successfully. -/
theorem release_funds_quorum_w :
    release_funds sampleState 5 90000 2 = .error .InsufficientSignatures ∧
    ∃ st', release_funds quorumState 5 100000 2 = .ok st' ∧
      st'.pot.is_released = true := by
  constructor
  · exact (release_funds_quorum sampleState 5 90000 2 rfl (by decide)).1
      (by decide)
  · obtain ⟨st', hok, hrel, -⟩ :=
      (release_funds_quorum quorumState 5 100000 2 rfl (by decide)).2
        (by decide) (by decide)
    exact ⟨st', hok, hrel⟩

/-- C4 counterexample: the claim "sign_release before the unlock fails with
TimeLockNotExpired regardless of contributor status" is false as stated: a
non-contributor signing an active pot before the unlock gets
`NotAContributor`, exactly as the test at `tests/contract.ts:502-517`
expects. -/
theorem sign_release_timelock_cex :
    ((0 : Int) < sampleState.pot.unlock_timestamp) ∧
    sampleState.pot.is_released = false ∧
    sampleState.pot.contributors.contains 7 = false ∧
    sign_release sampleState 7 0 = .error .NotAContributor ∧
    sign_release sampleState 7 0 ≠ .error .TimeLockNotExpired := by
  decide

/-- C4 (amended): on an active pot, `sign_release` before the unlock fails
with `TimeLockNotExpired` for every contributor who has not already signed;
a non-contributor instead fails with `NotAContributor` and an
already-signed contributor with `AlreadySigned`, regardless of time. -/
theorem sign_release_checks (st : PotState) (caller : Pubkey) (now : Int)
    (hact : st.pot.is_released = false) :
    (st.pot.contributors.contains caller = true →
       st.pot.signatures.contains caller = false →
       now < st.pot.unlock_timestamp →
       sign_release st caller now = .error .TimeLockNotExpired) ∧
    (st.pot.contributors.contains caller = false →
       sign_release st caller now = .error .NotAContributor) ∧
    (st.pot.contributors.contains caller = true →
       st.pot.signatures.contains caller = true →
       sign_release st caller now = .error .AlreadySigned) := by
  refine ⟨?_, ?_, ?_⟩
  · intro h1 h2 h3
    have h1' : caller ∈ st.pot.contributors := by simpa using h1
    have h2' : caller ∉ st.pot.signatures := by simpa using h2
    simp [sign_release, hact, h1', h2', h3]
  · intro h1
    have h1' : caller ∉ st.pot.contributors := by simpa using h1
    simp [sign_release, hact, h1']
  · intro h1 h2
    have h1' : caller ∈ st.pot.contributors := by simpa using h1
    have h2' : caller ∈ st.pot.signatures := by simpa using h2
    simp [sign_release, hact, h1', h2']

/-- Witness for C4's amended statement at concrete callers: a contributor
before the unlock, a non-contributor, and an already-signed contributor. -/
theorem sign_release_checks_w :
    sign_release sampleState 0 0 = .error .TimeLockNotExpired ∧
    sign_release sampleState 7 0 = .error .NotAContributor ∧
    sign_release quorumState 1 100000 = .error .AlreadySigned := by
  refine ⟨?_, ?_, ?_⟩
  · exact (sign_release_checks sampleState 0 0 rfl).1 (by decide) (by decide)
      (by decide)
  · exact (sign_release_checks sampleState 7 0 rfl).2.1 (by decide)
  · exact (sign_release_checks quorumState 1 100000 rfl).2.2 (by decide)
      (by decide)

/-- C5: for every valid `create_pot` input (name ≤ 32 chars, description
≤ 200 chars, positive target, unlock days and signers required), the created
Pot has `unlock_timestamp = created_at + unlock_days*86400` exactly,
`contributors = [authority]`, zero `total_contributed`, no signatures, and
`is_released = false`. -/
theorem create_pot_valid (authority : Pubkey) (name description : String)
    (target_amount : Nat) (unlock_days : Int) (signers_required : Nat)
    (now : Int) (h1 : name.length ≤ 32) (h2 : description.length ≤ 200)
    (h3 : 0 < target_amount) (h4 : 0 < unlock_days)
    (h5 : 0 < signers_required) :
    ∃ p, create_pot authority name description target_amount unlock_days
        signers_required now = .ok p ∧
      p.created_at = now ∧
      p.unlock_timestamp = p.created_at + unlock_days * 86400 ∧
      p.contributors = [authority] ∧
      p.total_contributed = 0 ∧
      p.signatures = [] ∧
      p.is_released = false := by
  unfold create_pot
  rw [if_neg (by omega), if_neg (by omega), if_neg (by omega),
      if_neg (by omega), if_neg (by omega)]
  exact ⟨_, rfl, rfl, rfl, rfl, rfl, rfl, rfl⟩

/-- Witness for C5 at the valid creation input of
`tests/contract.ts:80-114`. -/
theorem create_pot_valid_w :
    ∃ p, create_pot 0 "Trip Fund" "Saving for Tokyo trip" 50 30 2 100
        = .ok p ∧
      p.created_at = 100 ∧
      p.unlock_timestamp = p.created_at + 30 * 86400 ∧
      p.contributors = [0] ∧
      p.total_contributed = 0 ∧
      p.signatures = [] ∧
      p.is_released = false :=
  create_pot_valid 0 "Trip Fund" "Saving for Tokyo trip" 50 30 2 100
    (by decide) (by decide) (by decide) (by decide) (by decide)

/-- C6: an otherwise-valid `contribute` call (active pot, positive amount)
whose amount would push the Pot's `total_contributed` or the caller's
`ContributorAccount` `total_contributed` past the u64 maximum fails with
`Overflow`, and the atomically applied state after the failed call equals
the state from before it — all counters included. -/
theorem contribute_overflow (st : PotState) (caller : Pubkey) (amount : Nat)
    (now : Int) (hact : st.pot.is_released = false) (hamt : 0 < amount)
    (hover : U64MAX < st.pot.total_contributed + amount ∨
             U64MAX < contributorTotal st caller + amount) :
    contribute st caller amount now = .error .Overflow ∧
    applyContribute st caller amount now = st := by
  have hmain : contribute st caller amount now = .error .Overflow := by
    unfold contribute
    rw [if_neg (by simp [hact]), if_neg (by omega)]
    rcases hfind : findAccount st.accounts caller with _ | a
    · have hct : contributorTotal st caller = 0 := by
        simp [contributorTotal, hfind]
      rcases hacc : checkedAddU64 0 amount with _ | accTotal
      · simp [hfind, hacc]
      · rcases hpot : checkedAddU64 st.pot.total_contributed amount
          with _ | potTotal
        · simp [hfind, hacc, hpot]
        · exfalso
          obtain ⟨-, hle1⟩ := eq_add_of_checkedAddU64_eq_some _ _ _ hacc
          obtain ⟨-, hle2⟩ := eq_add_of_checkedAddU64_eq_some _ _ _ hpot
          rcases hover with h | h
          · omega
          · omega
    · have hct : contributorTotal st caller = a.total_contributed := by
        simp [contributorTotal, hfind]
      rcases hacc : checkedAddU64 a.total_contributed amount with _ | accTotal
      · simp [hfind, hacc]
      · rcases hpot : checkedAddU64 st.pot.total_contributed amount
          with _ | potTotal
        · simp [hfind, hacc, hpot]
        · exfalso
          obtain ⟨-, hle1⟩ := eq_add_of_checkedAddU64_eq_some _ _ _ hacc
          obtain ⟨-, hle2⟩ := eq_add_of_checkedAddU64_eq_some _ _ _ hpot
          rcases hover with h | h
          · omega
          · omega
  exact ⟨hmain, by simp [applyContribute, hmain]⟩

/-- Witness for C6 at a concrete pot whose running total sits at the u64
maximum: contributing one more unit fails `Overflow` and leaves the state
unchanged. -/
theorem contribute_overflow_w :
    contribute overState 1 1 0 = .error .Overflow ∧
    applyContribute overState 1 1 0 = overState :=
  contribute_overflow overState 1 1 0 rfl (by decide) (Or.inl (by decide))

/-- C7: `create_pot` validation boundaries, each check independent of the
other fields: a 32-character name with otherwise-valid fields succeeds; a
33-character name fails `NameTooLong` whatever the other fields; a zero
target amount (with valid name and description) fails `InvalidTargetAmount`
whatever the unlock period and signer count; a zero signer requirement
(with all other fields valid) fails `InvalidSignersRequired`. -/
theorem create_pot_boundary (authority : Pubkey) (name description : String)
    (target_amount : Nat) (unlock_days : Int) (signers_required : Nat)
    (now : Int) (hdesc : description.length ≤ 200) :
    (name.length = 32 → 0 < target_amount → 0 < unlock_days →
       0 < signers_required →
       ∃ p, create_pot authority name description target_amount unlock_days
           signers_required now = .ok p) ∧
    (name.length = 33 →
       create_pot authority name description target_amount unlock_days
         signers_required now = .error .NameTooLong) ∧
    (name.length ≤ 32 → target_amount = 0 →
       create_pot authority name description target_amount unlock_days
         signers_required now = .error .InvalidTargetAmount) ∧
    (name.length ≤ 32 → 0 < target_amount → 0 < unlock_days →
       signers_required = 0 →
       create_pot authority name description target_amount unlock_days
         signers_required now = .error .InvalidSignersRequired) := by
  refine ⟨?_, ?_, ?_, ?_⟩
  · intro hn ht hu hs
    unfold create_pot
    rw [if_neg (by omega), if_neg (by omega), if_neg (by omega),
        if_neg (by omega), if_neg (by omega)]
    exact ⟨_, rfl⟩
  · intro hn
    unfold create_pot
    rw [if_pos (by omega)]
  · intro hn ht
    unfold create_pot
    rw [if_neg (by omega), if_neg (by omega), if_pos ht]
  · intro hn ht hu hs
    unfold create_pot
    rw [if_neg (by omega), if_neg (by omega), if_neg (by omega),
        if_neg (by omega), if_pos hs]

/-- Witness for C7 at concrete inputs with exactly one bad field each. -/
theorem create_pot_boundary_w :
    (∃ p, create_pot 0 name32 "d" 50 30 2 0 = .ok p) ∧
    create_pot 0 name33 "d" 50 30 2 0 = .error .NameTooLong ∧
    create_pot 0 "Zero Target" "d" 0 30 2 0 = .error .InvalidTargetAmount ∧
    create_pot 0 "Zero Signers" "d" 50 30 0 0
      = .error .InvalidSignersRequired := by
  refine ⟨?_, ?_, ?_, ?_⟩
  · exact (create_pot_boundary 0 name32 "d" 50 30 2 0 (by decide)).1
      (by decide) (by decide) (by decide) (by decide)
  · exact (create_pot_boundary 0 name33 "d" 50 30 2 0 (by decide)).2.1
      (by decide)
  · exact (create_pot_boundary 0 "Zero Target" "d" 0 30 2 0 (by decide)).2.2.1
      (by decide) (by decide)
  · exact (create_pot_boundary 0 "Zero Signers" "d" 50 30 0 0
      (by decide)).2.2.2 (by decide) (by decide) (by decide) (by decide)

/-- C8: `add_contributor` on an active pot with a genuinely new contributor
appends that identity to `contributors` and changes nothing else — no
`ContributorAccount` is created, no contribution recorded, the balance and
every other Pot field are untouched; with an identity already enrolled it
fails with `AlreadyAContributor`. -/
theorem add_contributor_frame (st : PotState) (new_contributor : Pubkey)
    (hact : st.pot.is_released = false) :
    (st.pot.contributors.contains new_contributor = false →
       ∃ st', add_contributor st new_contributor = .ok st' ∧
         st'.pot.contributors = st.pot.contributors ++ [new_contributor] ∧
         st'.accounts = st.accounts ∧
         st'.balance = st.balance ∧
         st'.potAddress = st.potAddress ∧
         st'.pot.authority = st.pot.authority ∧
         st'.pot.name = st.pot.name ∧
         st'.pot.description = st.pot.description ∧
         st'.pot.target_amount = st.pot.target_amount ∧
         st'.pot.total_contributed = st.pot.total_contributed ∧
         st'.pot.unlock_timestamp = st.pot.unlock_timestamp ∧
         st'.pot.signers_required = st.pot.signers_required ∧
         st'.pot.signatures = st.pot.signatures ∧
         st'.pot.is_released = st.pot.is_released ∧
         st'.pot.released_at = st.pot.released_at ∧
         st'.pot.recipient = st.pot.recipient ∧
         st'.pot.created_at = st.pot.created_at) ∧
    (st.pot.contributors.contains new_contributor = true →
       add_contributor st new_contributor = .error .AlreadyAContributor) := by
  constructor
  · intro hnew
    have hnew' : ¬ st.pot.contributors.contains new_contributor = true := by
      rw [hnew]
      exact Bool.false_ne_true
    unfold add_contributor
    rw [if_neg (by simp [hact]), if_neg hnew']
    exact ⟨_, rfl, rfl, rfl, rfl, rfl, rfl, rfl, rfl, rfl, rfl, rfl, rfl,
      rfl, by simp [hact], rfl, rfl, rfl⟩
  · intro hnew
    unfold add_contributor
    rw [if_neg (by simp [hact]), if_pos hnew]

/-- Witness for C8 at a concrete pot: adding identity 7 (new) succeeds and
only extends the contributor list; adding identity 0 (the enrolled
authority) fails. -/
theorem add_contributor_frame_w :
    add_contributor sampleState 0 = .error .AlreadyAContributor ∧
    (∃ st', add_contributor sampleState 7 = .ok st' ∧
      st'.pot.contributors = [0, 7] ∧ st'.accounts = [] ∧
      st'.pot.total_contributed = 0) := by
  constructor
  · exact (add_contributor_frame sampleState 0 rfl).2 (by decide)
  · obtain ⟨st', hok, hc, hacc, hbal, haddr, hrest⟩ :=
      (add_contributor_frame sampleState 7 rfl).1 (by decide)
    refine ⟨st', hok, ?_, ?_, ?_⟩
    · rw [hc]; decide
    · rw [hacc]; decide
    · rw [hrest.2.2.2.2.1]; decide

theorem string_length_le_utf8ByteSize (s : String) :
    s.length ≤ s.utf8ByteSize := by
  obtain ⟨l⟩ := s
  show l.length ≤ String.utf8Len l
  induction l with
  | nil => simp
  | cons c cs ih =>
      have h := Char.utf8Size_pos c
      simp only [List.length_cons, String.utf8Len_cons]
      omega

theorem create_pot_nameTooLong_iff_long (authority : Pubkey)
    (name description : String) (target_amount : Nat) (unlock_days : Int)
    (signers_required : Nat) (now : Int)
    (h : create_pot authority name description target_amount unlock_days
      signers_required now = .error .NameTooLong) :
    32 < name.length := by
  by_contra hle
  unfold create_pot at h
  rw [if_neg (by omega)] at h
  split at h
  · simp at h
  · split at h
    · simp at h
    · split at h
      · simp at h
      · split at h
        · simp at h
        · simp at h

/-- C9: a `create_pot` submission whose name exceeds 32 bytes is rejected by
the environment's seed-length limit while deriving the pot address from
`("pot", authority, name)`, before the handler runs, with the environment's
`Max seed length exceeded` error; and no submission, whatever its inputs,
can surface the handler's `NameTooLong` error through this public path
(every name short enough to pass the seed check also passes the handler's
32-character check, since a string's character count never exceeds its UTF-8
byte count). -/
theorem createPot_nameTooLong_unreachable (authority : Pubkey)
    (name description : String) (target_amount : Nat) (unlock_days : Int)
    (signers_required : Nat) (now : Int) :
    (MAX_SEED_LEN < name.utf8ByteSize →
       submitCreatePot authority name description target_amount unlock_days
         signers_required now = .error .maxSeedLengthExceeded) ∧
    submitCreatePot authority name description target_amount unlock_days
      signers_required now ≠ .error (.program .NameTooLong) := by
  constructor
  · intro h
    unfold submitCreatePot derivePotAddress
    rw [if_pos (by omega)]
  · intro hcontra
    by_cases hb : name.utf8ByteSize > MAX_SEED_LEN
    · unfold submitCreatePot derivePotAddress at hcontra
      rw [if_pos (by omega)] at hcontra
      simp at hcontra
    · unfold submitCreatePot derivePotAddress at hcontra
      rw [if_neg (by omega)] at hcontra
      rcases hcp : create_pot authority name description target_amount
          unlock_days signers_required now with e | p
      · rw [hcp] at hcontra
        have he : e = PotError.NameTooLong := by
          simpa using hcontra
        subst he
        have hlong := create_pot_nameTooLong_iff_long authority name
          description target_amount unlock_days signers_required now hcp
        have hbytes := string_length_le_utf8ByteSize name
        simp only [MAX_SEED_LEN] at hb
        omega
      · rw [hcp] at hcontra
        simp at hcontra

/-- Witness for C9 at a concrete 33-byte name. -/
theorem createPot_nameTooLong_unreachable_w :
    submitCreatePot 0 name33 "d" 50 30 2 0 = .error .maxSeedLengthExceeded ∧
    submitCreatePot 0 name33 "d" 50 30 2 0 ≠ .error (.program .NameTooLong) :=
  ⟨(createPot_nameTooLong_unreachable 0 name33 "d" 50 30 2 0).1 (by decide),
   (createPot_nameTooLong_unreachable 0 name33 "d" 50 30 2 0).2⟩

/-- C10: the frontend builder `buildCreatePotTx` passes six positional
arguments to `createPot` — the sixth a currency enum — while the contract's
declared `create_pot` instruction takes exactly five parameters with no
currency among them, so for no parameter choice does the built call match
the declared interface. -/
theorem buildCreatePot_interface_mismatch (p : CreatePotParams) :
    (buildCreatePotArgs p).length = 6 ∧
    createPotDeclaredParams.length = 5 ∧
    (buildCreatePotArgs p).length ≠ createPotDeclaredParams.length ∧
    (buildCreatePotArgs p).getLast? = some (.currencyArg p.currency) ∧
    "currency" ∉ createPotDeclaredParams := by
  refine ⟨rfl, rfl, by simp [buildCreatePotArgs, createPotDeclaredParams],
    rfl, by decide⟩
